import Mathlib

/-!
Verification of the arrow-function core of the ezno parser
(src/parser/src/expressions/arrow_function.rs) against its specification.

The Rust source is shallowly embedded: the mutable token reader becomes
explicit passing of the remaining token list, the global id counters
(VariableId, FunctionId, BlockId) become explicit counters threaded through
parsing (spec section 9 describes this as the intended redesign of the
ad-hoc global generators), and Rust Result values become an explicit
outcome type that also records panics (unwrap of a missing peek).
External collaborators that are out of scope of the given source (the
expression grammar, the block grammar, the type-reference grammar, the
parameter-list engine and the token helpers) are modelled from the
specification; each such definition carries a doc comment starting
with "Modelled from the spec:".
-/

namespace Ezno

/-- Source range: source id with start and end offsets (spec section 3). -/
structure Span where
  sourceId : Nat
  start : Nat
  stop : Nat
deriving DecidableEq, Repr

/-- Smallest span covering both spans (spec section 3: merging). -/
def Span.union (a b : Span) : Span :=
  { sourceId := a.sourceId, start := min a.start b.start, stop := max a.stop b.stop }

/-- Modelled from the spec: leftmost_override (section 4.1) extends a
construct's reported start position to an optional earlier leading token. -/
def leftmost_override (existing : Span) (maybe_earlier : Option Span) : Span :=
  match maybe_earlier with
  | some earlier => { existing with start := min existing.start earlier.start }
  | none => existing

/-- Token kinds used by this core (spec section 6 lists the required
vocabulary: parentheses, comma, colon, the arrow boundary, the async
keyword, identifiers, braces; number literals and the rest marker are part
of the external grammars modelled below). -/
inductive TSXToken where
  | OpenParentheses
  | CloseParentheses
  | OpenBrace
  | CloseBrace
  | Arrow
  | Colon
  | Comma
  | Semicolon
  | QuestionMark
  | Spread
  | KeywordAsync
  | Identifier (s : String)
  | NumberLiteral (s : String)
deriving DecidableEq, Repr

/-- A token: kind with its span (spec section 3). -/
structure Token where
  kind : TSXToken
  span : Span
deriving DecidableEq, Repr

/-- Parse errors (spec section 7): exhausted stream where a token was
required, or a wrong token at a mandatory position. -/
inductive ParseError where
  | UnexpectedEndOfInput
  | UnexpectedToken (expected : String) (found : TSXToken) (pos : Span)
deriving DecidableEq, Repr

/-- The per-pass identifier generator (spec sections 5 and 9): one counter
per identifier family, mirroring the separate global counters of the
source's VariableId, FunctionId and BlockId types. -/
structure ParsingState where
  variableIdCounter : Nat
  functionIdCounter : Nat
  blockIdCounter : Nat
deriving DecidableEq, Repr

/-- Mint a fresh VariableId (source: VariableId::new()). -/
def ParsingState.freshVariableId (st : ParsingState) : Nat × ParsingState :=
  (st.variableIdCounter, { st with variableIdCounter := st.variableIdCounter + 1 })

/-- Mint a fresh FunctionId (source: FunctionId::new()). -/
def ParsingState.freshFunctionId (st : ParsingState) : Nat × ParsingState :=
  (st.functionIdCounter, { st with functionIdCounter := st.functionIdCounter + 1 })

/-- Mint a fresh BlockId (source: BlockId::new()). -/
def ParsingState.freshBlockId (st : ParsingState) : Nat × ParsingState :=
  (st.blockIdCounter, { st with blockIdCounter := st.blockIdCounter + 1 })

/-- Cross-cutting parser configuration (spec section 6); no field of it is
consulted by this core, so it is an empty record threaded for fidelity. -/
structure ParseSettings where
deriving DecidableEq, Repr

/-- Printing configuration (spec section 4.3): at least a pretty flag. -/
structure ToStringSettings where
  pretty : Bool
deriving DecidableEq, Repr

/-- Outcome of running a parsing function: success with the value, the
remaining tokens and the updated state; a returned parse-error value; or a
Rust panic (unwrap of a None peek). -/
inductive PResult (α : Type) where
  | ok (val : α) (rest : List Token) (state : ParsingState)
  | error (err : ParseError)
  | panic
deriving DecidableEq, Repr

/-- Token stream peek (spec section 4.2): look one ahead, never consumes. -/
def peek (ts : List Token) : Option Token :=
  ts.head?

/-- Token stream expect_next (spec section 4.2): consume a token of the
given kind and return its span, or fail. -/
def expect_next (expected : TSXToken) (ts : List Token) :
    Except ParseError (Span × List Token) :=
  match ts with
  | [] => .error .UnexpectedEndOfInput
  | t :: rest =>
    if t.kind = expected then .ok (t.span, rest)
    else .error (.UnexpectedToken "token of the expected kind" t.kind t.span)

/-- Modelled from the spec: crate::errors::parse_lexing_error, the failure
used when the stream is exhausted where a token was required (section 7:
UnexpectedEndOfInput). -/
def parse_lexing_error : ParseError :=
  .UnexpectedEndOfInput

/-- Modelled from the spec: crate::tokens::token_as_identifier, which views
a token as a bare identifier or fails with UnexpectedToken (sections 4.2
and 7). -/
def token_as_identifier (t : Token) (expected : String) :
    Except ParseError (String × Span) :=
  match t.kind with
  | .Identifier s => .ok (s, t.span)
  | k => .error (.UnexpectedToken expected k t.span)

/-- A name pattern (source type VariableField): a plain identifier (the
source's VariableField::Name, built from VariableIdentifier::Standard with
its name, minted VariableId and span) or a destructuring pattern (spec
section 3: name_pattern may be a destructuring pattern; modelled as an
array destructuring of plain names). -/
inductive VariableField where
  | Name (name : String) (variableId : Nat) (position : Span)
  | ArrayDestructure (fields : List String) (position : Span)
deriving DecidableEq, Repr

/-- A node wrapped with an optional leading comment (source type
WithComment); the arrow-function source only builds the plain form. -/
inductive WithComment (α : Type) where
  | None (val : α)
  | PrefixComment (comment : String) (val : α)
deriving DecidableEq, Repr

/-- The wrapped node itself (source method WithComment::get_ast). -/
def WithComment.get_ast : WithComment α → α
  | .None v => v
  | .PrefixComment _ v => v

/-- Modelled from the spec: a type reference produced by the external
type-reference grammar (sections 1 and 6); minimal form, a single
identifier naming the type. -/
structure TypeReference where
  name : String
  position : Span
deriving DecidableEq, Repr

/-- A function parameter (source type Parameter): a name pattern with an
optional declared type. -/
structure Parameter where
  name : WithComment VariableField
  type_reference : Option TypeReference
deriving DecidableEq, Repr

/-- A complete parameter list (source type FunctionParameters, spec
section 3): required parameters, optional parameters, nullable rest
parameter, and the covered span. -/
structure FunctionParameters where
  parameters : List Parameter
  optional_parameters : List Parameter
  rest_parameter : Option Parameter
  position : Span
deriving DecidableEq, Repr

/-- Modelled from the spec: the external type-reference grammar entry
TypeReference::from_reader (sections 1 and 6); consumes one identifier
naming the type. -/
def TypeReference.from_reader (ts : List Token) (st : ParsingState)
    (_settings : ParseSettings) : PResult TypeReference :=
  match ts with
  | [] => .error .UnexpectedEndOfInput
  | t :: rest =>
    match t.kind with
    | .Identifier s => .ok { name := s, position := t.span } rest st
    | k => .error (.UnexpectedToken "type reference" k t.span)

/-- Modelled from the spec: one entry of the parameter-list engine
(section 4.4): an optional rest marker, a name pattern (here a plain
identifier, minting its VariableId), an optional question-mark optional
marker, and an optional colon-prefixed declared type. Returns the
rest flag, the optional flag, the parameter, the remaining tokens and the
updated variable-id counter. -/
def paramEntry (ts : List Token) (vctr : Nat) :
    Except ParseError (Bool × Bool × Parameter × List Token × Nat) :=
  match ts with
  | [] => .error .UnexpectedEndOfInput
  | t :: rest0 =>
    let (isRest, ts1) :=
      if t.kind = .Spread then (true, rest0) else (false, t :: rest0)
    match ts1 with
    | [] => .error .UnexpectedEndOfInput
    | nameTok :: rest1 =>
      match token_as_identifier nameTok "parameter name" with
      | .error e => .error e
      | .ok (name, position) =>
        let field : WithComment VariableField :=
          WithComment.None (VariableField.Name name vctr position)
        let (isOptional, rest2) :=
          match rest1 with
          | q :: r => if q.kind = TSXToken.QuestionMark then (true, r) else (false, rest1)
          | [] => (false, rest1)
        match rest2 with
        | c :: r =>
          if c.kind = TSXToken.Colon then
            match r with
            | [] => .error .UnexpectedEndOfInput
            | tyTok :: r2 =>
              match tyTok.kind with
              | .Identifier s =>
                .ok (isRest, isOptional,
                  { name := field,
                    type_reference := some { name := s, position := tyTok.span } },
                  r2, vctr + 1)
              | k => .error (.UnexpectedToken "type reference" k tyTok.span)
          else
            .ok (isRest, isOptional, { name := field, type_reference := none },
              rest2, vctr + 1)
        | [] =>
          .ok (isRest, isOptional, { name := field, type_reference := none },
            rest2, vctr + 1)

/-- Modelled from the spec: the comma-separated loop of the parameter-list
engine (section 4.4). Classifies each entry as required, optional or rest;
enforces that optional parameters follow all required ones, that at most
one rest parameter occurs and that nothing follows it. Returns the three
groups, the close-parenthesis span, the remaining tokens and the updated
variable-id counter. Fuel bounds the recursion; each step consumes at
least one token, so the caller's fuel of one more than the stream length
is never exhausted. -/
def paramsLoop (fuel : Nat) (ts : List Token) (vctr : Nat)
    (req opt : List Parameter) (rest : Option Parameter) :
    Except ParseError
      ((List Parameter × List Parameter × Option Parameter) × Span × List Token × Nat) :=
  match fuel with
  | 0 => .error .UnexpectedEndOfInput
  | fuel + 1 =>
    match paramEntry ts vctr with
    | .error e => .error e
    | .ok (isRest, isOptional, p, ts1, vctr1) =>
      match ts1 with
      | [] => .error .UnexpectedEndOfInput
      | sep :: ts2 =>
        if isRest = true then
          match rest with
        | some _ =>
            .error (.UnexpectedToken "at most one rest parameter" sep.kind sep.span)
        | none =>
            if sep.kind = .CloseParentheses then
              .ok ((req.reverse, opt.reverse, some p), sep.span, ts2, vctr1)
            else
              .error (.UnexpectedToken "close parenthesis after rest parameter"
                sep.kind sep.span)
        else
          let groups :=
            if isOptional then .ok (req, p :: opt)
            else if opt.isEmpty then .ok (p :: req, opt)
            else (.error (.UnexpectedToken "optional parameters must follow required ones"
              sep.kind sep.span) :
                Except ParseError (List Parameter × List Parameter))
          match groups with
          | .error e => .error e
          | .ok (req1, opt1) =>
            if sep.kind = .CloseParentheses then
              .ok ((req1.reverse, opt1.reverse, rest), sep.span, ts2, vctr1)
            else if sep.kind = .Comma then
              paramsLoop fuel ts2 vctr1 req1 opt1 rest
            else
              .error (.UnexpectedToken "comma or close parenthesis" sep.kind sep.span)

/-- Modelled from the spec: the Parameter List Engine entry point (source
FunctionParameters::from_reader_sub_open_parenthesis), invoked just after
the open parenthesis was consumed (section 4.4). The resulting span merges
the open-parenthesis span with the close-parenthesis span. Only the
variable-id counter of the state is touched. -/
def FunctionParameters.from_reader_sub_open_parenthesis (ts : List Token)
    (st : ParsingState) (_settings : ParseSettings) (open_paren_span : Span) :
    PResult FunctionParameters :=
  match ts with
  | [] => .error .UnexpectedEndOfInput
  | t :: rest =>
    if t.kind = .CloseParentheses then
      .ok { parameters := [], optional_parameters := [], rest_parameter := none,
            position := open_paren_span.union t.span } rest st
    else
      match paramsLoop (ts.length + 1) ts st.variableIdCounter [] [] none with
      | .error e => .error e
      | .ok ((req, opt, restP), closeSpan, ts2, vctr) =>
        .ok { parameters := req, optional_parameters := opt, rest_parameter := restP,
              position := open_paren_span.union closeSpan } ts2
          { st with variableIdCounter := vctr }

/-- Modelled from the spec: the external expression grammar (sections 1
and 6); minimal form, an expression is a variable reference or a number
literal. -/
inductive Expression where
  | VariableReference (name : String) (position : Span)
  | NumberValue (value : String) (position : Span)
deriving DecidableEq, Repr

/-- Modelled from the spec: Expression::get_position (section 4.3). -/
def Expression.get_position : Expression → Span
  | .VariableReference _ p => p
  | .NumberValue _ p => p

/-- Modelled from the spec: the external expression grammar entry
Expression::from_reader (sections 1 and 6); consumes one identifier or
number-literal token and mints nothing, leaving the state unchanged. -/
def Expression.from_reader (ts : List Token) (st : ParsingState)
    (_settings : ParseSettings) : PResult Expression :=
  match ts with
  | [] => .error .UnexpectedEndOfInput
  | t :: rest =>
    match t.kind with
    | .Identifier s => .ok (.VariableReference s t.span) rest st
    | .NumberLiteral s => .ok (.NumberValue s t.span) rest st
    | k => .error (.UnexpectedToken "expression" k t.span)

/-- A statement block (source type Block, a tuple of the statement list,
the minted BlockId and the covered span; the source reads field 1 as the
block id). Statements are modelled as expression statements, the external
statement grammar being out of scope (spec section 1). -/
structure Block where
  statements : List Expression
  blockId : Nat
  position : Span
deriving DecidableEq, Repr

/-- Source method Block::get_position. -/
def Block.get_position (b : Block) : Span :=
  b.position

/-- Modelled from the spec: the statement loop of the external block
grammar; expression statements with optional semicolons up to the closing
brace, whose span is returned. The loop mints nothing. Fuel bounds the
recursion; each step consumes at least one token. -/
def blockStatementsLoop (fuel : Nat) (ts : List Token) (acc : List Expression) :
    Except ParseError (List Expression × Span × List Token) :=
  match fuel with
  | 0 => .error .UnexpectedEndOfInput
  | fuel + 1 =>
    match ts with
    | [] => .error .UnexpectedEndOfInput
    | t :: rest =>
      if t.kind = TSXToken.CloseBrace then
        .ok (acc.reverse, t.span, rest)
      else
        match t.kind with
        | .Identifier s =>
          match rest with
          | sep :: rest2 =>
            if sep.kind = TSXToken.Semicolon then
              blockStatementsLoop fuel rest2 (.VariableReference s t.span :: acc)
            else
              blockStatementsLoop fuel rest (.VariableReference s t.span :: acc)
          | [] => blockStatementsLoop fuel rest (.VariableReference s t.span :: acc)
        | .NumberLiteral s =>
          match rest with
          | sep :: rest2 =>
            if sep.kind = TSXToken.Semicolon then
              blockStatementsLoop fuel rest2 (.NumberValue s t.span :: acc)
            else
              blockStatementsLoop fuel rest (.NumberValue s t.span :: acc)
          | [] => blockStatementsLoop fuel rest (.NumberValue s t.span :: acc)
        | k => .error (.UnexpectedToken "statement" k t.span)

/-- Modelled from the spec: the external block grammar entry
Block::from_reader (sections 1 and 6): consume the open brace, mint a new
block identifier (section 4.6), parse the statements up to the close
brace. Only the block-id counter of the state is touched. -/
def Block.from_reader (ts : List Token) (st : ParsingState)
    (_settings : ParseSettings) : PResult Block :=
  match ts with
  | [] => .error .UnexpectedEndOfInput
  | t :: rest =>
    if t.kind = TSXToken.OpenBrace then
      let (bid, st1) := st.freshBlockId
      match blockStatementsLoop (rest.length + 1) rest [] with
      | .error e => .error e
      | .ok (stmts, closeSpan, ts2) =>
        .ok { statements := stmts, blockId := bid, position := t.span.union closeSpan }
          ts2 st1
    else .error (.UnexpectedToken "open brace" t.kind t.span)

/-- Body of an arrow function (source type ExpressionOrBlock): a single
expression or a statement block. -/
inductive ExpressionOrBlock where
  | Expression (expression : Expression)
  | Block (block : Block)
deriving DecidableEq, Repr

/-- Source method ExpressionOrBlock::get_block_id: the block identifier
for the Block variant, nothing for the Expression variant. -/
def ExpressionOrBlock.get_block_id : ExpressionOrBlock → Option Nat
  | .Expression _ => none
  | .Block block => some block.blockId

/-- Source method ExpressionOrBlock::get_position: delegate to the held
variant. -/
def ExpressionOrBlock.get_position : ExpressionOrBlock → Span
  | .Expression expression => expression.get_position
  | .Block block => block.get_position

/-- Source method ExpressionOrBlock::from_reader: peek (unwrap panics on
an exhausted stream); an open brace starts a Block, anything else a single
Expression. -/
def ExpressionOrBlock.from_reader (ts : List Token) (st : ParsingState)
    (settings : ParseSettings) : PResult ExpressionOrBlock :=
  match peek ts with
  | none => .panic
  | some t =>
    if t.kind = TSXToken.OpenBrace then
      match Block.from_reader ts st settings with
      | .ok b rest st1 => .ok (.Block b) rest st1
      | .error e => .error e
      | .panic => .panic
    else
      match Expression.from_reader ts st settings with
      | .ok e rest st1 => .ok (.Expression e) rest st1
      | .error e => .error e
      | .panic => .panic

/-- A keyword marker with its span (source type Keyword, whose field 1 is
the span; the phantom keyword tag is dropped). -/
structure Keyword where
  span : Span
deriving DecidableEq, Repr

/-- Source constructor Keyword::new. -/
def Keyword.new (pos : Span) : Keyword :=
  { span := pos }

/-- Source method ArrowFunctionBase::header_and_name_from_reader: peek for
an async keyword; consume exactly it when present; the name is always the
empty value and the call never fails. -/
def ArrowFunctionBase.header_and_name_from_reader (ts : List Token)
    (st : ParsingState) (_settings : ParseSettings) :
    PResult (Option Keyword × Unit) :=
  match peek ts with
  | some t =>
    if t.kind = TSXToken.KeywordAsync then
      .ok (some (Keyword.new t.span), ()) ts.tail st
    else
      .ok (none, ()) ts st
  | none => .ok (none, ()) ts st

/-- Source method ArrowFunctionBase::parameters_from_reader: an open
parenthesis is consumed and the parameter-list engine invoked; any other
token must be a single bare identifier forming a complete one-parameter
list (minting its VariableId); an exhausted stream is a lexing error. -/
def ArrowFunctionBase.parameters_from_reader (ts : List Token)
    (st : ParsingState) (settings : ParseSettings) : PResult FunctionParameters :=
  match ts with
  | [] => .error parse_lexing_error
  | t :: rest =>
    match t.kind with
    | .OpenParentheses =>
      FunctionParameters.from_reader_sub_open_parenthesis rest st settings t.span
    | _ =>
      match token_as_identifier t "arrow function parameter" with
      | .error e => .error e
      | .ok (name, position) =>
        let (vid, st1) := st.freshVariableId
        .ok { parameters :=
                [{ name := WithComment.None (VariableField.Name name vid position),
                   type_reference := none }],
              optional_parameters := [],
              rest_parameter := none,
              position := position } rest st1

/-- Modelled from the spec: printing one name pattern; a plain identifier
prints its name, an array destructuring prints its bracketed names. -/
def VariableField.print : VariableField → String
  | .Name name _ _ => name
  | .ArrayDestructure fields _ => "[" ++ String.intercalate ", " fields ++ "]"

/-- Modelled from the spec: printing one parameter entry of the
parameter-list engine (section 4.4): the name pattern, a question mark
when printed among the optional parameters, and the colon-prefixed
declared type when present. -/
def Parameter.entryToString (p : Parameter) (isOptional : Bool) : String :=
  p.name.get_ast.print
    ++ (if isOptional then "?" else "")
    ++ (match p.type_reference with
        | some ty => ": " ++ ty.name
        | none => "")

/-- Modelled from the spec: the Parameter List Engine's default printing
(source FunctionParameters::to_string_from_buffer, section 4.4):
parentheses around the comma-joined entries, the rest entry last with its
rest marker. -/
def FunctionParameters.to_string_from_buffer (buf : String)
    (parameters : FunctionParameters) (settings : ToStringSettings)
    (_depth : Nat) : String :=
  let sep := if settings.pretty then ", " else ","
  let entries :=
    parameters.parameters.map (fun p => p.entryToString false)
      ++ parameters.optional_parameters.map (fun p => p.entryToString true)
      ++ (match parameters.rest_parameter with
          | some p => ["..." ++ p.entryToString false]
          | none => [])
  buf ++ "(" ++ String.intercalate sep entries ++ ")"

/-- Source method ArrowFunctionBase::parameters_to_string_from_buffer: use
the bare-name shorthand when there are no optional parameters, no rest
parameter, and exactly one required parameter whose name pattern is a
plain identifier; otherwise fall back to the default parenthesized
printer. -/
def ArrowFunctionBase.parameters_to_string_from_buffer (buf : String)
    (parameters : FunctionParameters) (settings : ToStringSettings)
    (depth : Nat) : String :=
  if parameters.optional_parameters.isEmpty && parameters.rest_parameter.isNone then
    match parameters.parameters with
    | [p] =>
      match p.name.get_ast with
      | .Name name _ _ => buf ++ name
      | _ => FunctionParameters.to_string_from_buffer buf parameters settings depth
    | _ => FunctionParameters.to_string_from_buffer buf parameters settings depth
  else
    FunctionParameters.to_string_from_buffer buf parameters settings depth

/-- Source method
ArrowFunctionBase::parameter_body_boundary_token_to_string_from_buffer:
the boundary prints as the arrow, spaced in pretty mode. -/
def ArrowFunctionBase.parameter_body_boundary_token_to_string_from_buffer
    (buf : String) (settings : ToStringSettings) : String :=
  buf ++ (if settings.pretty then " => " else "=>")

/-- Source method ArrowFunctionBase::header_left: the span of the async
keyword when the header is present. -/
def ArrowFunctionBase.header_left (header : Option Keyword) : Option Span :=
  header.map (fun kw => kw.span)

/-- An arrow function (source type ArrowFunction = FunctionBase over
ArrowFunctionBase): nullable async header, empty name, parameter list,
nullable return type, nullable type parameters (never produced by this
core), body and minted function id. -/
structure ArrowFunction where
  header : Option Keyword
  name : Unit
  parameters : FunctionParameters
  return_type : Option TypeReference
  type_parameters : Option Unit
  body : ExpressionOrBlock
  function_id : Nat
deriving DecidableEq, Repr

/-- Modelled from the spec: the generic FunctionBase get_position
(section 4.3): the exact consumed range, including the leftward extension
from the optional leading async keyword via leftmost_override of the
parameter-to-body range with header_left (section 4.1). -/
def ArrowFunction.get_position (af : ArrowFunction) : Span :=
  leftmost_override (af.parameters.position.union af.body.get_position)
    (ArrowFunctionBase.header_left af.header)

/-- Source method ArrowFunction::from_reader_with_first_parameter: the
caller already consumed one bare identifier; build the one-parameter list
(minting its VariableId), expect the arrow, parse the body, mint the
function id. The header is always absent and no return type is parsed. -/
def ArrowFunction.from_reader_with_first_parameter (ts : List Token)
    (st : ParsingState) (settings : ParseSettings)
    (first_parameter : String × Span) : PResult ArrowFunction :=
  let (vid, st1) := st.freshVariableId
  let parameters : List Parameter :=
    [{ name := WithComment.None
         (VariableField.Name first_parameter.1 vid first_parameter.2),
       type_reference := none }]
  match expect_next TSXToken.Arrow ts with
  | .error e => .error e
  | .ok (_, ts1) =>
    match ExpressionOrBlock.from_reader ts1 st1 settings with
    | .error e => .error e
    | .panic => .panic
    | .ok body ts2 st2 =>
      let (fid, st3) := st2.freshFunctionId
      .ok { header := none, name := (),
            parameters :=
              { parameters := parameters, optional_parameters := [],
                rest_parameter := none, position := first_parameter.2 },
            return_type := none, type_parameters := none,
            body := body, function_id := fid } ts2 st3

/-- Source method ArrowFunction::from_reader_sub_open_paren: the caller
already consumed the open parenthesis (and any async keyword); run the
parameter-list engine, then peek (unwrap panics on an exhausted stream)
for an optional colon-prefixed return type, expect the arrow, parse the
body, mint the function id. -/
def ArrowFunction.from_reader_sub_open_paren (ts : List Token)
    (st : ParsingState) (settings : ParseSettings)
    (is_async : Option Keyword) (open_paren_span : Span) : PResult ArrowFunction :=
  match FunctionParameters.from_reader_sub_open_parenthesis ts st settings
      open_paren_span with
  | .error e => .error e
  | .panic => .panic
  | .ok parameters ts1 st1 =>
    match peek ts1 with
    | none => .panic
    | some t =>
      let cont := fun (return_type : Option TypeReference) (ts2 : List Token)
          (st2 : ParsingState) =>
        match expect_next TSXToken.Arrow ts2 with
        | .error e => PResult.error e
        | .ok (_, ts3) =>
          match ExpressionOrBlock.from_reader ts3 st2 settings with
          | .error e => .error e
          | .panic => .panic
          | .ok body ts4 st4 =>
            let (fid, st5) := st4.freshFunctionId
            .ok { header := is_async, name := (), parameters := parameters,
                  return_type := return_type, type_parameters := none,
                  body := body, function_id := fid } ts4 st5
      if t.kind = TSXToken.Colon then
        match TypeReference.from_reader ts1.tail st1 settings with
        | .error e => .error e
        | .panic => .panic
        | .ok ty ts2 st2 => cont (some ty) ts2 st2
      else
        cont none ts1 st1

/-- Agreement of the two disambiguation entry points on the suffix after
the parameter list: same outcome kind; on success the same body, the same
remaining stream and the same function id, the parenthesized entry
carrying the caller-supplied header and the parsed parameter list, the
first-parameter entry carrying no header; neither yields a return type
here (the first-parameter entry never parses one, and the hypothesis of
the suffix-agreement theorem excludes a colon for the parenthesized
entry). -/
def SuffixOutcomesAgree (r₁ r₂ : PResult ArrowFunction)
    (is_async : Option Keyword) (ps : FunctionParameters) : Prop :=
  match r₁, r₂ with
  | .ok af₁ rest₁ _, .ok af₂ rest₂ _ =>
    af₁.body = af₂.body ∧ rest₁ = rest₂ ∧ af₁.function_id = af₂.function_id ∧
    af₁.header = is_async ∧ af₂.header = none ∧
    af₁.return_type = none ∧ af₂.return_type = none ∧
    af₁.parameters = ps
  | .error e₁, .error e₂ => e₁ = e₂
  | .panic, .panic => True
  | _, _ => False

/-- The shape for which the source's shorthand printing applies: no
optional parameters, no rest parameter, and exactly one required
parameter whose name pattern is a plain identifier. -/
def shorthandShape (ps : FunctionParameters) : Bool :=
  ps.optional_parameters.isEmpty && ps.rest_parameter.isNone &&
    (match ps.parameters with
     | [p] =>
       (match p.name.get_ast with
        | .Name _ _ _ => true
        | _ => false)
     | _ => false)

/-- A span of the single source file, for concrete inputs. -/
def spanAt (a b : Nat) : Span :=
  { sourceId := 0, start := a, stop := b }

/-- The all-zero identifier-generator state, for concrete inputs. -/
def initialState : ParsingState :=
  { variableIdCounter := 0, functionIdCounter := 0, blockIdCounter := 0 }

/-- Default parse settings, for concrete inputs. -/
def defaultSettings : ParseSettings := {}

/-- A single required parameter named x with a declared type. -/
def typedNameParameter : Parameter :=
  { name := WithComment.None (VariableField.Name "x" 0 (spanAt 0 1)),
    type_reference := some { name := "T", position := spanAt 3 4 } }

/-- A parameter list holding only typedNameParameter. -/
def typedSingleList : FunctionParameters :=
  { parameters := [typedNameParameter], optional_parameters := [],
    rest_parameter := none, position := spanAt 0 4 }

/-- A single required parameter whose name pattern is an array
destructuring, with no declared type. -/
def destructuredParameter : Parameter :=
  { name := WithComment.None (VariableField.ArrayDestructure ["a", "b"] (spanAt 0 6)),
    type_reference := none }

/-- A parameter list holding only destructuredParameter. -/
def destructuredSingleList : FunctionParameters :=
  { parameters := [destructuredParameter], optional_parameters := [],
    rest_parameter := none, position := spanAt 0 6 }

/-- A single required parameter named x with no declared type. -/
def bareNameParameter : Parameter :=
  { name := WithComment.None (VariableField.Name "x" 0 (spanAt 0 1)),
    type_reference := none }

/-- A parameter list holding only bareNameParameter. -/
def bareNameSingleList : FunctionParameters :=
  { parameters := [bareNameParameter], optional_parameters := [],
    rest_parameter := none, position := spanAt 0 1 }

/-- A parameter list with two required parameters. -/
def twoParameterList : FunctionParameters :=
  { parameters := [bareNameParameter, bareNameParameter], optional_parameters := [],
    rest_parameter := none, position := spanAt 0 5 }

/-- Continuation tokens supplying a return type and then a boundary and a
body: colon, type name T, arrow, identifier y. -/
def returnTypeSuffixTokens : List Token :=
  [{ kind := TSXToken.Colon, span := spanAt 2 3 },
   { kind := TSXToken.Identifier "T", span := spanAt 4 5 },
   { kind := TSXToken.Arrow, span := spanAt 6 8 },
   { kind := TSXToken.Identifier "y", span := spanAt 9 10 }]

/-- Whether a parse outcome is a success carrying a return type. -/
def returnTypeSupplied : PResult ArrowFunction → Bool
  | .ok af _ _ => af.return_type.isSome
  | _ => false

/-- Tokens of an empty parenthesized parameter list followed by a
boundary and a body: close parenthesis, arrow, identifier y. -/
def emptyParamsThenBodyTokens : List Token :=
  [{ kind := TSXToken.CloseParentheses, span := spanAt 1 2 },
   { kind := TSXToken.Arrow, span := spanAt 3 5 },
   { kind := TSXToken.Identifier "y", span := spanAt 6 7 }]

/-- The parameter list the engine produces for emptyParamsThenBodyTokens. -/
def emptyParamsResult : FunctionParameters :=
  { parameters := [], optional_parameters := [], rest_parameter := none,
    position := spanAt 0 2 }

/-- An arrow function with an async header starting before its parameter
list, for the position witness. -/
def asyncArrowSample : ArrowFunction :=
  { header := some (Keyword.new (spanAt 0 5)), name := (),
    parameters :=
      { parameters := [], optional_parameters := [], rest_parameter := none,
        position := spanAt 6 8 },
    return_type := none, type_parameters := none,
    body := ExpressionOrBlock.Expression
      (Expression.VariableReference "y" (spanAt 12 13)),
    function_id := 0 }

/-- The parameter-list engine touches only the variable-id counter: on
success the function-id and block-id counters are unchanged. -/
theorem sub_open_parenthesis_counters (ts : List Token) (st : ParsingState)
    (settings : ParseSettings) (openSpan : Span) (ps : FunctionParameters)
    (ts' : List Token) (st' : ParsingState)
    (h : FunctionParameters.from_reader_sub_open_parenthesis ts st settings openSpan
          = .ok ps ts' st') :
    st'.functionIdCounter = st.functionIdCounter ∧
    st'.blockIdCounter = st.blockIdCounter := by
  cases ts with
  | nil => simp [FunctionParameters.from_reader_sub_open_parenthesis] at h
  | cons t rest =>
    simp only [FunctionParameters.from_reader_sub_open_parenthesis] at h
    split at h
    · cases h
      exact ⟨rfl, rfl⟩
    · split at h
      · cases h
      · cases h
        exact ⟨rfl, rfl⟩

/-- The modelled expression grammar leaves the state untouched, its result
does not depend on the state, and it never panics. -/
theorem expression_from_reader_state (ts : List Token) (st₁ st₂ : ParsingState)
    (settings : ParseSettings) :
    (∀ e r st', Expression.from_reader ts st₁ settings = .ok e r st' →
        st' = st₁ ∧ Expression.from_reader ts st₂ settings = .ok e r st₂) ∧
    (∀ err, Expression.from_reader ts st₁ settings = .error err →
        Expression.from_reader ts st₂ settings = .error err) ∧
    (Expression.from_reader ts st₁ settings ≠ .panic) := by
  cases ts with
  | nil =>
    refine ⟨?_, ?_, ?_⟩ <;> simp [Expression.from_reader]
  | cons t rest =>
    cases hke : t.kind <;>
      refine ⟨?_, ?_, ?_⟩ <;>
      simp_all [Expression.from_reader]

/-- Body parsing is determined by the stream and the block-id counter:
two runs from states agreeing on the block-id counter produce the same
body, remaining stream and outcome kind, and neither touches the
function-id counter. -/
theorem expression_or_block_agree (ts : List Token) (st₁ st₂ : ParsingState)
    (settings : ParseSettings) (h : st₁.blockIdCounter = st₂.blockIdCounter) :
    (∀ v r st₁', ExpressionOrBlock.from_reader ts st₁ settings = .ok v r st₁' →
        ∃ st₂', ExpressionOrBlock.from_reader ts st₂ settings = .ok v r st₂' ∧
          st₁'.functionIdCounter = st₁.functionIdCounter ∧
          st₂'.functionIdCounter = st₂.functionIdCounter) ∧
    (∀ err, ExpressionOrBlock.from_reader ts st₁ settings = .error err →
        ExpressionOrBlock.from_reader ts st₂ settings = .error err) ∧
    (ExpressionOrBlock.from_reader ts st₁ settings = .panic →
        ExpressionOrBlock.from_reader ts st₂ settings = .panic) := by
  cases ts with
  | nil =>
    refine ⟨?_, ?_, ?_⟩ <;> simp [ExpressionOrBlock.from_reader, peek]
  | cons t rest =>
    by_cases hk : t.kind = TSXToken.OpenBrace
    · simp only [ExpressionOrBlock.from_reader, peek, List.head?, if_pos hk,
        Block.from_reader, ParsingState.freshBlockId]
      cases hbl : blockStatementsLoop (rest.length + 1) rest [] with
      | error e => simp
      | ok v =>
        obtain ⟨stmts, closeSpan, ts2⟩ := v
        refine ⟨?_, ?_, ?_⟩
        · intro v r st₁' hok
          cases hok
          exact ⟨{ st₂ with blockIdCounter := st₂.blockIdCounter + 1 },
            by rw [h], rfl, rfl⟩
        · intro err herr
          cases herr
        · intro hp
          cases hp
    · simp only [ExpressionOrBlock.from_reader, peek, List.head?, if_neg hk]
      obtain ⟨hok, herr, hpan⟩ :=
        expression_from_reader_state (t :: rest) st₁ st₂ settings
      cases hre : Expression.from_reader (t :: rest) st₁ settings with
      | ok e r st' =>
        obtain ⟨hst, hre2⟩ := hok e r st' hre
        subst hst
        rw [hre2]
        refine ⟨?_, ?_, ?_⟩
        · intro v r2 st₁' hok2
          cases hok2
          exact ⟨st₂, rfl, rfl, rfl⟩
        · intro err herr2
          cases herr2
        · intro hp
          cases hp
      | error err =>
        rw [herr err hre]
        refine ⟨?_, ?_, ?_⟩
        · intro v r2 st₁' hok2
          cases hok2
        · intro err2 herr2
          cases herr2
          rfl
        · intro hp
          cases hp
      | panic => exact absurd hre hpan

/-- C2 (amended): after the parameter list, when no colon-prefixed return
type follows and the stream is not exhausted, the two disambiguation entry
points complete the boundary token and the body identically: same outcome
kind, same body value, same remaining stream and same minted function id;
they differ in the parameter-list prefix, in the header (caller-supplied
versus always absent) and in the return type, which only the
parenthesized entry point could have parsed. -/
theorem claim2_entry_points_suffix_agree (tsP : List Token) (st : ParsingState)
    (settings : ParseSettings) (openSpan : Span) (is_async : Option Keyword)
    (fp : String × Span) (ps : FunctionParameters) (tsRest : List Token)
    (stMid : ParsingState)
    (hps : FunctionParameters.from_reader_sub_open_parenthesis tsP st settings openSpan
            = .ok ps tsRest stMid)
    (hne : tsRest ≠ [])
    (hcolon : ∀ t rest, tsRest = t :: rest → t.kind ≠ TSXToken.Colon) :
    SuffixOutcomesAgree
      (ArrowFunction.from_reader_sub_open_paren tsP st settings is_async openSpan)
      (ArrowFunction.from_reader_with_first_parameter tsRest st settings fp)
      is_async ps := by
  obtain ⟨hfn, hblk⟩ :=
    sub_open_parenthesis_counters tsP st settings openSpan ps tsRest stMid hps
  cases tsRest with
  | nil => exact absurd rfl hne
  | cons t rest =>
    have hck : t.kind ≠ TSXToken.Colon := hcolon t rest rfl
    unfold ArrowFunction.from_reader_sub_open_paren
    rw [hps]
    unfold ArrowFunction.from_reader_with_first_parameter
    simp only [peek, List.head?, if_neg hck, ParsingState.freshVariableId]
    cases hex : expect_next TSXToken.Arrow (t :: rest) with
    | error e =>
      simp [SuffixOutcomesAgree, hex]
    | ok v =>
      obtain ⟨spA, ts3⟩ := v
      simp only [hex]
      obtain ⟨hok, herr, hpan⟩ := expression_or_block_agree ts3 stMid
        { st with variableIdCounter := st.variableIdCounter + 1 } settings
        (by simpa using hblk)
      cases hre : ExpressionOrBlock.from_reader ts3 stMid settings with
      | ok body ts4 st4 =>
        obtain ⟨st₂', hre2, hfn1, hfn2⟩ := hok body ts4 st4 hre
        rw [hre2]
        simp [SuffixOutcomesAgree, ParsingState.freshFunctionId, hfn1, hfn2, hfn]
      | error err =>
        rw [herr err hre]
        simp [SuffixOutcomesAgree]
      | panic =>
        rw [hpan hre]
        simp [SuffixOutcomesAgree]

/-- C2 (counterexample): on the same continuation tokens that supply a
return type, the first-parameter entry point fails at the boundary check
while the parenthesized entry point succeeds and yields a return type, so
the two entry points do not complete the remaining grammar identically. -/
theorem claim2_entry_points_counterexample :
    ArrowFunction.from_reader_with_first_parameter returnTypeSuffixTokens
      initialState defaultSettings ("a", spanAt 0 1)
      = .error (.UnexpectedToken "token of the expected kind" TSXToken.Colon (spanAt 2 3)) ∧
    returnTypeSupplied
      (ArrowFunction.from_reader_sub_open_paren
        ({ kind := TSXToken.CloseParentheses, span := spanAt 1 2 } :: returnTypeSuffixTokens)
        initialState defaultSettings none (spanAt 0 1)) = true := by
  constructor <;> decide

/-- C2 (witness): the suffix agreement instantiated on the concrete
tokens of an empty parameter list followed by an arrow and a body. -/
theorem claim2_entry_points_witness :
    SuffixOutcomesAgree
      (ArrowFunction.from_reader_sub_open_paren emptyParamsThenBodyTokens
        initialState defaultSettings none (spanAt 0 1))
      (ArrowFunction.from_reader_with_first_parameter emptyParamsThenBodyTokens.tail
        initialState defaultSettings ("x", spanAt 0 1))
      none emptyParamsResult :=
  claim2_entry_points_suffix_agree emptyParamsThenBodyTokens initialState
    defaultSettings (spanAt 0 1) none ("x", spanAt 0 1) emptyParamsResult
    emptyParamsThenBodyTokens.tail initialState (by decide) (by decide)
    (by intro t rest h; cases h; decide)

/-- C3: on the input x arrow with the body missing, the body parse does
not return the UnexpectedEndOfInput error value the specification
promises: after the boundary token is consumed the body parser unwraps a
peek of the exhausted stream and panics. -/
theorem claim3_missing_body_panics :
    ArrowFunction.from_reader_with_first_parameter
      [{ kind := TSXToken.Arrow, span := spanAt 2 4 }]
      initialState defaultSettings ("x", spanAt 0 1) = .panic := by
  decide

/-- C10: whenever the parameter-list engine succeeds but consumes the
whole stream, from_reader_sub_open_paren panics at the unwrapped peek of
the return-type colon check instead of returning an error value. -/
theorem claim10_exhausted_after_params_panics (tsP : List Token)
    (st : ParsingState) (settings : ParseSettings) (is_async : Option Keyword)
    (openSpan : Span) (ps : FunctionParameters) (st' : ParsingState)
    (h : FunctionParameters.from_reader_sub_open_parenthesis tsP st settings openSpan
          = .ok ps [] st') :
    ArrowFunction.from_reader_sub_open_paren tsP st settings is_async openSpan
      = .panic := by
  unfold ArrowFunction.from_reader_sub_open_paren
  rw [h]
  rfl

/-- C10 (witness): a lone close parenthesis leaves nothing after the
parameter list and the entry point panics. -/
theorem claim10_exhausted_after_params_witness :
    FunctionParameters.from_reader_sub_open_parenthesis
      [{ kind := TSXToken.CloseParentheses, span := spanAt 1 2 }]
      initialState defaultSettings (spanAt 0 1)
      = .ok emptyParamsResult [] initialState ∧
    ArrowFunction.from_reader_sub_open_paren
      [{ kind := TSXToken.CloseParentheses, span := spanAt 1 2 }]
      initialState defaultSettings none (spanAt 0 1) = .panic :=
  ⟨by decide,
   claim10_exhausted_after_params_panics _ initialState defaultSettings none
     (spanAt 0 1) emptyParamsResult initialState (by decide)⟩

/-- C4: parameters_from_reader consumes an open parenthesis and delegates
to the parameter-list engine; any other token must be a bare identifier
and yields the complete one-parameter list with that name, no declared
type, no optional parameters and no rest parameter; a non-identifier
non-parenthesis token is a parse failure, and so is an exhausted
stream. -/
theorem claim4_parameters_from_reader_cases (t : Token) (rest : List Token)
    (st : ParsingState) (settings : ParseSettings) :
    (t.kind = TSXToken.OpenParentheses →
      ArrowFunctionBase.parameters_from_reader (t :: rest) st settings
        = FunctionParameters.from_reader_sub_open_parenthesis rest st settings t.span) ∧
    (∀ s, t.kind = TSXToken.Identifier s →
      ArrowFunctionBase.parameters_from_reader (t :: rest) st settings
        = .ok { parameters :=
                  [{ name := WithComment.None
                       (VariableField.Name s st.variableIdCounter t.span),
                     type_reference := none }],
                optional_parameters := [], rest_parameter := none,
                position := t.span }
            rest { st with variableIdCounter := st.variableIdCounter + 1 }) ∧
    (t.kind ≠ TSXToken.OpenParentheses → (∀ s, t.kind ≠ TSXToken.Identifier s) →
      ArrowFunctionBase.parameters_from_reader (t :: rest) st settings
        = .error (.UnexpectedToken "arrow function parameter" t.kind t.span)) ∧
    ArrowFunctionBase.parameters_from_reader [] st settings
      = .error parse_lexing_error := by
  obtain ⟨k, spn⟩ := t
  refine ⟨?_, ?_, ?_, rfl⟩
  · intro h
    cases h
    rfl
  · intro s hs
    cases hs
    rfl
  · intro h1 h2
    cases k
    case OpenParentheses => exact absurd rfl h1
    case Identifier s => exact absurd rfl (h2 s)
    all_goals rfl

/-- C4 (witness): the cases instantiated at a bare identifier, at an open
parenthesis and at a colon. -/
theorem claim4_parameters_from_reader_witness :
    ArrowFunctionBase.parameters_from_reader
      [{ kind := TSXToken.Identifier "x", span := spanAt 0 1 }]
      initialState defaultSettings
      = .ok { parameters :=
                [{ name := WithComment.None (VariableField.Name "x" 0 (spanAt 0 1)),
                   type_reference := none }],
              optional_parameters := [], rest_parameter := none,
              position := spanAt 0 1 }
          [] { initialState with variableIdCounter := 1 } ∧
    ArrowFunctionBase.parameters_from_reader
      [{ kind := TSXToken.OpenParentheses, span := spanAt 0 1 },
       { kind := TSXToken.CloseParentheses, span := spanAt 1 2 }]
      initialState defaultSettings
      = FunctionParameters.from_reader_sub_open_parenthesis
          [{ kind := TSXToken.CloseParentheses, span := spanAt 1 2 }]
          initialState defaultSettings (spanAt 0 1) ∧
    ArrowFunctionBase.parameters_from_reader
      [{ kind := TSXToken.Colon, span := spanAt 0 1 }]
      initialState defaultSettings
      = .error (.UnexpectedToken "arrow function parameter" TSXToken.Colon (spanAt 0 1)) :=
  ⟨((claim4_parameters_from_reader_cases
      { kind := TSXToken.Identifier "x", span := spanAt 0 1 } []
      initialState defaultSettings).2.1 "x" rfl),
   ((claim4_parameters_from_reader_cases
      { kind := TSXToken.OpenParentheses, span := spanAt 0 1 }
      [{ kind := TSXToken.CloseParentheses, span := spanAt 1 2 }]
      initialState defaultSettings).1 rfl),
   ((claim4_parameters_from_reader_cases
      { kind := TSXToken.Colon, span := spanAt 0 1 } []
      initialState defaultSettings).2.2.1 (by decide) (fun _ h => TSXToken.noConfusion h))⟩

/-- C5: on a non-exhausted stream, ExpressionOrBlock::from_reader peeks
without consuming: an open brace makes the result the Block variant of
whatever the block grammar parses from the unchanged stream, carrying the
newly minted block identifier; any other token makes the result the
Expression variant wrapping the single expression the expression grammar
parses from the unchanged stream. -/
theorem claim5_expression_or_block_branches (t : Token) (rest : List Token)
    (st : ParsingState) (settings : ParseSettings) :
    (t.kind = TSXToken.OpenBrace → ∀ b ts' st',
      Block.from_reader (t :: rest) st settings = .ok b ts' st' →
      ExpressionOrBlock.from_reader (t :: rest) st settings
        = .ok (.Block b) ts' st' ∧ b.blockId = st.blockIdCounter) ∧
    (t.kind ≠ TSXToken.OpenBrace → ∀ e ts' st',
      Expression.from_reader (t :: rest) st settings = .ok e ts' st' →
      ExpressionOrBlock.from_reader (t :: rest) st settings
        = .ok (.Expression e) ts' st') := by
  constructor
  · intro hk b ts' st' hb
    constructor
    · unfold ExpressionOrBlock.from_reader
      simp only [peek, List.head?, if_pos hk]
      rw [hb]
    · simp only [Block.from_reader, if_pos hk, ParsingState.freshBlockId] at hb
      cases hbl : blockStatementsLoop (rest.length + 1) rest [] with
      | error e =>
        rw [hbl] at hb
        cases hb
      | ok v =>
        obtain ⟨stmts, closeSpan, ts2⟩ := v
        rw [hbl] at hb
        cases hb
        rfl
  · intro hk e ts' st' he
    unfold ExpressionOrBlock.from_reader
    simp only [peek, List.head?, if_neg hk]
    rw [he]

/-- C5 (witness): the branches instantiated at an empty block body and at
an identifier expression body. -/
theorem claim5_expression_or_block_witness :
    ExpressionOrBlock.from_reader
      [{ kind := TSXToken.OpenBrace, span := spanAt 0 1 },
       { kind := TSXToken.CloseBrace, span := spanAt 2 3 }]
      initialState defaultSettings
      = .ok (.Block { statements := [], blockId := 0, position := spanAt 0 3 }) []
          { initialState with blockIdCounter := 1 } ∧
    ({ statements := [], blockId := 0, position := spanAt 0 3 } :
      Block).blockId = initialState.blockIdCounter ∧
    ExpressionOrBlock.from_reader
      [{ kind := TSXToken.Identifier "y", span := spanAt 0 1 }]
      initialState defaultSettings
      = .ok (.Expression (.VariableReference "y" (spanAt 0 1))) [] initialState := by
  refine ⟨?_, ?_, ?_⟩
  · exact ((claim5_expression_or_block_branches
      { kind := TSXToken.OpenBrace, span := spanAt 0 1 }
      [{ kind := TSXToken.CloseBrace, span := spanAt 2 3 }]
      initialState defaultSettings).1 rfl
      { statements := [], blockId := 0, position := spanAt 0 3 } []
      { initialState with blockIdCounter := 1 } (by decide)).1
  · exact ((claim5_expression_or_block_branches
      { kind := TSXToken.OpenBrace, span := spanAt 0 1 }
      [{ kind := TSXToken.CloseBrace, span := spanAt 2 3 }]
      initialState defaultSettings).1 rfl
      { statements := [], blockId := 0, position := spanAt 0 3 } []
      { initialState with blockIdCounter := 1 } (by decide)).2
  · exact (claim5_expression_or_block_branches
      { kind := TSXToken.Identifier "y", span := spanAt 0 1 } []
      initialState defaultSettings).2 (by decide)
      (.VariableReference "y" (spanAt 0 1)) [] initialState (by decide)

/-- C6: header_and_name_from_reader consumes exactly the peeked async
keyword when present, returning it as the header at its span; on any
other peek, or an exhausted stream, it consumes nothing and returns no
header; the name is always the empty value, the state is untouched and
the call never fails. -/
theorem claim6_header_peek_frame (ts : List Token) (st : ParsingState)
    (settings : ParseSettings) :
    (∀ t rest, ts = t :: rest → t.kind = TSXToken.KeywordAsync →
      ArrowFunctionBase.header_and_name_from_reader ts st settings
        = .ok (some (Keyword.new t.span), ()) rest st) ∧
    (∀ t rest, ts = t :: rest → t.kind ≠ TSXToken.KeywordAsync →
      ArrowFunctionBase.header_and_name_from_reader ts st settings
        = .ok (none, ()) ts st) ∧
    (ts = [] →
      ArrowFunctionBase.header_and_name_from_reader ts st settings
        = .ok (none, ()) ts st) ∧
    (∃ v rest2, ArrowFunctionBase.header_and_name_from_reader ts st settings
        = .ok v rest2 st) := by
  cases ts with
  | nil =>
    refine ⟨?_, ?_, fun _ => rfl, ⟨(none, ()), [], rfl⟩⟩
    · intro t rest h
      cases h
    · intro t rest h
      cases h
  | cons t rest =>
    by_cases hk : t.kind = TSXToken.KeywordAsync
    · refine ⟨?_, ?_, ?_, ?_⟩
      · intro t' rest' heq hkk
        cases heq
        simp [ArrowFunctionBase.header_and_name_from_reader, peek, hkk]
      · intro t' rest' heq hkk
        cases heq
        exact absurd hk hkk
      · intro h
        cases h
      · exact ⟨(some (Keyword.new t.span), ()), rest, by
          simp [ArrowFunctionBase.header_and_name_from_reader, peek, hk]⟩
    · refine ⟨?_, ?_, ?_, ?_⟩
      · intro t' rest' heq hkk
        cases heq
        exact absurd hkk hk
      · intro t' rest' heq hkk
        cases heq
        simp [ArrowFunctionBase.header_and_name_from_reader, peek, hk]
      · intro h
        cases h
      · exact ⟨(none, ()), t :: rest, by
          simp [ArrowFunctionBase.header_and_name_from_reader, peek, hk]⟩

/-- C6 (witness): the frame conditions instantiated at an async keyword
followed by an open parenthesis, and at a lone open parenthesis. -/
theorem claim6_header_peek_witness :
    ArrowFunctionBase.header_and_name_from_reader
      [{ kind := TSXToken.KeywordAsync, span := spanAt 0 5 },
       { kind := TSXToken.OpenParentheses, span := spanAt 6 7 }]
      initialState defaultSettings
      = .ok (some (Keyword.new (spanAt 0 5)), ())
          [{ kind := TSXToken.OpenParentheses, span := spanAt 6 7 }] initialState ∧
    ArrowFunctionBase.header_and_name_from_reader
      [{ kind := TSXToken.OpenParentheses, span := spanAt 6 7 }]
      initialState defaultSettings
      = .ok (none, ())
          [{ kind := TSXToken.OpenParentheses, span := spanAt 6 7 }] initialState :=
  ⟨(claim6_header_peek_frame _ initialState defaultSettings).1
      { kind := TSXToken.KeywordAsync, span := spanAt 0 5 }
      [{ kind := TSXToken.OpenParentheses, span := spanAt 6 7 }] rfl rfl,
   (claim6_header_peek_frame _ initialState defaultSettings).2.1
      { kind := TSXToken.OpenParentheses, span := spanAt 6 7 } [] rfl
      (fun h => TSXToken.noConfusion h)⟩

/-- C7: header_left returns the async keyword's span exactly when the
header is present and nothing otherwise, and when an async marker whose
start precedes the rest of the construct is present, the construct's
reported start position is the marker's start position. -/
theorem claim7_async_start_position (af : ArrowFunction) (kw : Keyword)
    (h1 : af.header = some kw)
    (h2 : kw.span.start ≤ (af.parameters.position.union af.body.get_position).start) :
    af.get_position.start = kw.span.start ∧
    ArrowFunctionBase.header_left af.header = some kw.span ∧
    ArrowFunctionBase.header_left (none : Option Keyword) = none := by
  refine ⟨?_, by rw [h1]; rfl, rfl⟩
  unfold ArrowFunction.get_position ArrowFunctionBase.header_left leftmost_override
  rw [h1]
  exact min_eq_right h2

/-- C7 (witness): an arrow function whose async keyword spans offsets 0
to 5 reports start position 0, not the parameter list's start 6. -/
theorem claim7_async_start_witness :
    asyncArrowSample.get_position.start = (spanAt 0 5).start ∧
    ArrowFunctionBase.header_left asyncArrowSample.header = some (spanAt 0 5) ∧
    ArrowFunctionBase.header_left (none : Option Keyword) = none :=
  claim7_async_start_position asyncArrowSample (Keyword.new (spanAt 0 5)) rfl
    (by decide)

/-- C8: get_block_id returns the block identifier exactly on the Block
variant and nothing on the Expression variant. -/
theorem claim8_get_block_id_variants :
    (∀ e : Expression, ExpressionOrBlock.get_block_id (.Expression e) = none) ∧
    (∀ b : Block, ExpressionOrBlock.get_block_id (.Block b) = some b.blockId) :=
  ⟨fun _ => rfl, fun _ => rfl⟩

/-- C9: the parameter-body boundary token prints as the arrow surrounded
by single spaces when pretty is set and as the bare arrow otherwise. -/
theorem claim9_boundary_print (buf : String) (settings : ToStringSettings) :
    (settings.pretty = true →
      ArrowFunctionBase.parameter_body_boundary_token_to_string_from_buffer
        buf settings = buf ++ " => ") ∧
    (settings.pretty = false →
      ArrowFunctionBase.parameter_body_boundary_token_to_string_from_buffer
        buf settings = buf ++ "=>") := by
  obtain ⟨p⟩ := settings
  cases p
  · exact ⟨fun h => Bool.noConfusion h, fun _ => rfl⟩
  · exact ⟨fun _ => rfl, fun h => Bool.noConfusion h⟩

/-- C9 (witness): both modes instantiated on a concrete buffer. -/
theorem claim9_boundary_print_witness :
    ArrowFunctionBase.parameter_body_boundary_token_to_string_from_buffer
      "x" { pretty := true } = "x" ++ " => " ∧
    ArrowFunctionBase.parameter_body_boundary_token_to_string_from_buffer
      "x" { pretty := false } = "x" ++ "=>" :=
  ⟨(claim9_boundary_print "x" { pretty := true }).1 rfl,
   (claim9_boundary_print "x" { pretty := false }).2 rfl⟩

/-- C1 (amended): the arrow-function parameter printer emits the bare
parameter name, with no enclosing parentheses, exactly when the list has
no optional parameters, no rest parameter and exactly one required
parameter whose name pattern is a plain identifier — the declared type is
not consulted; in every other case it emits the default parenthesized
list. -/
theorem claim1_shorthand_print_amended (ps : FunctionParameters)
    (settings : ToStringSettings) (depth : Nat) (buf : String) :
    (shorthandShape ps = true →
      ∃ p n v spn, ps.parameters = [p] ∧
        p.name.get_ast = VariableField.Name n v spn ∧
        ArrowFunctionBase.parameters_to_string_from_buffer buf ps settings depth
          = buf ++ n) ∧
    (shorthandShape ps = false →
      ∃ mid, ArrowFunctionBase.parameters_to_string_from_buffer buf ps settings depth
        = buf ++ "(" ++ mid ++ ")") := by
  obtain ⟨req, opt, rst, pos⟩ := ps
  cases opt with
  | cons o os =>
    refine ⟨?_, fun _ => ⟨_, rfl⟩⟩
    intro h
    simp [shorthandShape] at h
  | nil =>
    cases rst with
    | some r =>
      refine ⟨?_, fun _ => ⟨_, rfl⟩⟩
      intro h
      simp [shorthandShape] at h
    | none =>
      cases req with
      | nil =>
        refine ⟨?_, fun _ => ⟨_, rfl⟩⟩
        intro h
        simp [shorthandShape] at h
      | cons p ptl =>
        cases ptl with
        | cons q qtl =>
          refine ⟨?_, fun _ => ⟨_, rfl⟩⟩
          intro h
          simp [shorthandShape] at h
        | nil =>
          obtain ⟨pname, pty⟩ := p
          cases pname with
          | None vf =>
            cases vf with
            | Name n v spn =>
              exact ⟨fun _ => ⟨_, n, v, spn, rfl, rfl, rfl⟩,
                fun h => by simp [shorthandShape, WithComment.get_ast] at h⟩
            | ArrayDestructure fields spn =>
              exact ⟨fun h => by simp [shorthandShape, WithComment.get_ast] at h,
                fun _ => ⟨_, rfl⟩⟩
          | PrefixComment c vf =>
            cases vf with
            | Name n v spn =>
              exact ⟨fun _ => ⟨_, n, v, spn, rfl, rfl, rfl⟩,
                fun h => by simp [shorthandShape, WithComment.get_ast] at h⟩
            | ArrayDestructure fields spn =>
              exact ⟨fun h => by simp [shorthandShape, WithComment.get_ast] at h,
                fun _ => ⟨_, rfl⟩⟩

/-- C1 (counterexample): the claimed iff fails in both directions — a
single required parameter carrying a declared type still prints as the
bare name (no parentheses, the type silently dropped, although the claim
demands parentheses here), and a single untyped required parameter whose
name pattern is a destructuring prints with enclosing parentheses
although the claim demands none. -/
theorem claim1_shorthand_print_counterexample :
    ArrowFunctionBase.parameters_to_string_from_buffer "" typedSingleList
      { pretty := true } 0 = "x" ∧
    typedNameParameter.type_reference
      = some { name := "T", position := spanAt 3 4 } ∧
    ArrowFunctionBase.parameters_to_string_from_buffer "" destructuredSingleList
      { pretty := true } 0 = "([a, b])" ∧
    destructuredParameter.type_reference = none := by
  refine ⟨?_, rfl, ?_, rfl⟩ <;> decide

/-- C1 (witness): the amended characterization instantiated on a
single-untyped-plain-name list (bare-name output) and on a two-parameter
list (parenthesized output). -/
theorem claim1_shorthand_print_witness :
    (∃ p n v spn, bareNameSingleList.parameters = [p] ∧
      p.name.get_ast = VariableField.Name n v spn ∧
      ArrowFunctionBase.parameters_to_string_from_buffer "" bareNameSingleList
        { pretty := true } 0 = "" ++ n) ∧
    (∃ mid, ArrowFunctionBase.parameters_to_string_from_buffer "" twoParameterList
      { pretty := true } 0 = "" ++ "(" ++ mid ++ ")") :=
  ⟨(claim1_shorthand_print_amended bareNameSingleList { pretty := true } 0 "").1
      (by decide),
   (claim1_shorthand_print_amended twoParameterList { pretty := true } 0 "").2
      (by decide)⟩

end Ezno
